import Mathlib

/-!
# Mesh construction and batching of `runtime/draw/gl_utility.cpp`

A shallow embedding of the mesh part of the drawing utilities:

* `GLTriangleMesh` and its sizing constructor,
* `ConvertDiagMesh2DToGLMesh` (a planar triangle mesh placed in a depth plane),
* `CombineGLMesh` (batching with index offsetting),
* `GLTriangulate2DShape2D` / `GLTriangulate3DShape2D` (dispatch on the shape kind).

Conventions of the embedding.

* `std::vector` is `List`; `size_t` values are `Nat` (container sizes fit `size_t`).
* `GLuint` is `Nat` reduced with `% 2 ^ 32` wherever the code stores into a `GLuint`.
* `GLfloat` is `ℚ`: the modelled functions only store and copy floats and write the
  constants `0`, `1`, `-1`; the one place with float arithmetic (the disk outline)
  takes that arithmetic as a parameter.
* An unchecked `operator[]` outside the bounds and a dereferenced null pointer are
  undefined behaviour; the embedding returns `none` there.
-/

set_option linter.dupNamespace false

namespace diagrammar

/-! ## Data model -/

/-- The OpenGL float type; values are only stored and copied. -/
abbrev GLfloat := ℚ

/-- The OpenGL unsigned 32-bit integer type, as a natural number below `2 ^ 32`. -/
abbrev GLuint := Nat

/-- Conversion of an unsigned value to `GLuint`: reduction modulo `2 ^ 32`. -/
def toGLuint (n : Nat) : Nat := n % 2 ^ 32

/-- The header constant `kDiagrammarGLVertexDimension`. -/
def kDiagrammarGLVertexDimension : GLuint := 4

/-- Modelled from the spec: the identifier `dimension` read by the sizing constructor is
declared nowhere under src/; the spec fixes the attribute stride at 4 components per vertex
for all three attribute arrays, which is the header constant. -/
def dimension : GLuint := kDiagrammarGLVertexDimension

/-- The struct `GLTriangleMesh`: packed attribute arrays and an index array. -/
structure GLTriangleMesh where
  vertices : List GLfloat
  normals : List GLfloat
  colors : List GLfloat
  indices : List GLuint
deriving DecidableEq, Repr

/-- The defaulted constructor `GLTriangleMesh()`: four empty vectors. -/
def GLTriangleMesh.default : GLTriangleMesh :=
  { vertices := [], normals := [], colors := [], indices := [] }

/-- The constructor `GLTriangleMesh(GLuint num_vertices, GLuint num_faces)`: the arguments
are converted to `GLuint`, the sizes are computed in `GLuint` arithmetic, and the vectors are
value-initialised (filled with zero). -/
def GLTriangleMesh.GLTriangleMesh (num_vertices num_faces : Nat) : GLTriangleMesh :=
  let nv : GLuint := toGLuint num_vertices
  let nf : GLuint := toGLuint num_faces
  { vertices := List.replicate (toGLuint (dimension * nv)) 0
    normals := List.replicate (toGLuint (dimension * nv)) 0
    colors := List.replicate (toGLuint (dimension * nv)) 0
    indices := List.replicate (toGLuint (3 * nf)) 0 }

/-- A 2D point (`Vector2f`): component `(0)` is `.1`, component `(1)` is `.2`. -/
abbrev Vector2f := GLfloat × GLfloat

/-- A path: a vector of 2D points. -/
abbrev Path2D := List Vector2f

/-- Modelled from the spec: the declaration of `TriangleMesh2D` is not under src/. The spec
gives an ordered sequence of 2D points plus an ordered sequence of index triples; the code
reads `vertices[i](0)`, `vertices[i](1)` and `faces[i].at(0..2)`. -/
structure TriangleMesh2D where
  vertices : List Vector2f
  faces : List (Nat × Nat × Nat)
deriving DecidableEq, Repr

/-- Modelled from the spec: the declaration of `Polygon2D` is not under src/. The spec gives
an ordered boundary with optional holes; the code fills the member `path`. -/
structure Polygon2D where
  path : Path2D
  holes : List Path2D
deriving DecidableEq, Repr

/-- Modelled from the spec: the enumeration `Shape2DType` is not under src/. The code names
the enumerators `kDisk`, `kPolygon` and `kPolyLine`; `kOther` stands for every other value of
the tag. -/
inductive Shape2DType where
  | kDisk
  | kPolygon
  | kPolyLine
  | kOther (tag : Nat)
deriving DecidableEq, Repr

/-- Modelled from the spec: the class hierarchy under `CollisionShape2D` is not under src/.
This is the dynamic type of the object behind the pointer, with the members the code reads:
`Disk2D::radius`, the `Polygon2D` itself, `Line2D::path`. -/
inductive ShapeObject where
  | Disk2D (radius : GLfloat)
  | Polygon2D (polygon : Polygon2D)
  | Line2D (path : Path2D)
  | Unknown
deriving DecidableEq, Repr

/-- The object behind a `CollisionShape2D *`: the tag field `shape_type` and the dynamic
type of the object, which the code does not check against each other. -/
structure CollisionShape2D where
  shape_type : Shape2DType
  object : ShapeObject
deriving DecidableEq, Repr

/-- The cast `dynamic_cast<Disk2D *>`: a null pointer (`none`) on another dynamic type. -/
def asDisk2D (shape : CollisionShape2D) : Option GLfloat :=
  match shape.object with
  | .Disk2D radius => some radius
  | _ => none

/-- The cast `dynamic_cast<Polygon2D *>`: a null pointer (`none`) on another dynamic type. -/
def asPolygon2D (shape : CollisionShape2D) : Option Polygon2D :=
  match shape.object with
  | .Polygon2D polygon => some polygon
  | _ => none

/-- The cast `dynamic_cast<Line2D *>`: a null pointer (`none`) on another dynamic type. -/
def asLine2D (shape : CollisionShape2D) : Option Path2D :=
  match shape.object with
  | .Line2D path => some path
  | _ => none

/-- The collaborators of the dispatcher that are not under src/: the tessellation service
and the float arithmetic of the disk outline. -/
structure Services where
  -- the call `TriangulatePolygon(polygon)`
  TriangulatePolygon : Polygon2D → TriangleMesh2D
  -- the call `TriangulatePolyline(path, width)`
  TriangulatePolyline : Path2D → GLfloat → TriangleMesh2D
  -- the float expression `float(i) / num_vertices * M_PI * 2`
  theta : Nat → Nat → GLfloat
  -- the float expression `cos(theta) * radius`
  cosTimes : GLfloat → GLfloat → GLfloat
  -- the float expression `sin(theta) * radius`
  sinTimes : GLfloat → GLfloat → GLfloat

/-- One call made to the tessellation service. -/
inductive TessCall where
  | polygon (polygon : Polygon2D)
  | polyline (path : Path2D) (width : GLfloat)
deriving DecidableEq, Repr

/-! ## `ConvertDiagMesh2DToGLMesh` -/

/-- The assignment `v[j] = x` through the unchecked `operator[]`: defined inside the bounds
only. -/
def store {α : Type} (v : List α) (j : Nat) (x : α) : Option (List α) :=
  if j < v.length then some (v.set j x) else none

/-- The body of the first loop of `ConvertDiagMesh2DToGLMesh` at counters `i`, `j`. -/
def vertexBody (diag_mesh : TriangleMesh2D) (depth : GLfloat) (normal_sign : Int)
    (i j : Nat) (gl_mesh : GLTriangleMesh) : Option GLTriangleMesh := do
  let p ← diag_mesh.vertices[i]?
  let v ← store gl_mesh.vertices (j + 0) p.1
  let v ← store v (j + 1) p.2
  let v ← store v (j + 2) depth
  let v ← store v (j + 3) 1
  let n ← store gl_mesh.normals (j + 0) 0
  let n ← store n (j + 1) 0
  let n ← store n (j + 2) (normal_sign : GLfloat)
  let n ← store n (j + 3) 1
  let c := gl_mesh.colors
  let c ← if i % 3 = 0 then do
      let c ← store c (j + 0) 1
      let c ← store c (j + 1) 0
      let c ← store c (j + 2) 0
      store c (j + 3) 1
    else pure c
  let c ← if i % 3 = 1 then do
      let c ← store c (j + 0) 0
      let c ← store c (j + 1) 1
      let c ← store c (j + 2) 0
      store c (j + 3) 1
    else pure c
  let c ← if i % 3 = 2 then do
      let c ← store c (j + 0) 0
      let c ← store c (j + 1) 0
      let c ← store c (j + 2) 1
      store c (j + 3) 1
    else pure c
  pure { gl_mesh with vertices := v, normals := n, colors := c }

/-- The first loop `for (i = 0, j = 0; i < num_vertices; ++i, j += 4)`; the first argument
counts the iterations still to run, `num_vertices - i`. -/
def vertexLoop (diag_mesh : TriangleMesh2D) (depth : GLfloat) (normal_sign : Int) :
    Nat → Nat → Nat → GLTriangleMesh → Option GLTriangleMesh
  | 0, _, _, gl_mesh => some gl_mesh
  | remaining + 1, i, j, gl_mesh =>
    (vertexBody diag_mesh depth normal_sign i j gl_mesh).bind
      (vertexLoop diag_mesh depth normal_sign remaining (i + 1) (j + 4))

/-- The body of the second loop of `ConvertDiagMesh2DToGLMesh` at counters `i`, `j`; each
face entry is converted to `GLuint` by the assignment. -/
def faceBody (diag_mesh : TriangleMesh2D) (i j : Nat) (gl_mesh : GLTriangleMesh) :
    Option GLTriangleMesh := do
  let f ← diag_mesh.faces[i]?
  let x ← store gl_mesh.indices (j + 0) (toGLuint f.1)
  let x ← store x (j + 1) (toGLuint f.2.1)
  let x ← store x (j + 2) (toGLuint f.2.2)
  pure { gl_mesh with indices := x }

/-- The second loop `for (i = 0, j = 0; i < num_faces; ++i, j += 3)`; the first argument
counts the iterations still to run, `num_faces - i`. -/
def faceLoop (diag_mesh : TriangleMesh2D) :
    Nat → Nat → Nat → GLTriangleMesh → Option GLTriangleMesh
  | 0, _, _, gl_mesh => some gl_mesh
  | remaining + 1, i, j, gl_mesh =>
    (faceBody diag_mesh i j gl_mesh).bind (faceLoop diag_mesh remaining (i + 1) (j + 3))

/-- The function `ConvertDiagMesh2DToGLMesh(diag_mesh, depth, normal_up)`. -/
def ConvertDiagMesh2DToGLMesh (diag_mesh : TriangleMesh2D) (depth : GLfloat)
    (normal_up : Bool) : Option GLTriangleMesh :=
  let normal_sign : Int := if normal_up then 1 else -1
  let gl_mesh := GLTriangleMesh.GLTriangleMesh diag_mesh.vertices.length diag_mesh.faces.length
  let num_vertices := diag_mesh.vertices.length
  (vertexLoop diag_mesh depth normal_sign num_vertices 0 0 gl_mesh).bind fun gl_mesh =>
    let num_faces := diag_mesh.faces.length
    faceLoop diag_mesh num_faces 0 0 gl_mesh

/-! ## `CombineGLMesh` -/

/-- One iteration of the loop of `CombineGLMesh`: `offset` is read before the insertions,
the three attribute arrays are appended, and each index is advanced by `offset` in place (a
`GLuint` assignment) before the index array is appended. -/
def combineStep (combined_mesh mesh : GLTriangleMesh) : GLTriangleMesh :=
  let offset := combined_mesh.vertices.length / 4
  { vertices := combined_mesh.vertices ++ mesh.vertices
    normals := combined_mesh.normals ++ mesh.normals
    colors := combined_mesh.colors ++ mesh.colors
    indices := combined_mesh.indices ++ mesh.indices.map fun idx => toGLuint (idx + offset) }

/-- The function `CombineGLMesh(meshes)`: the loop runs over the meshes in order, starting
from the default-constructed mesh. -/
def CombineGLMesh (meshes : List GLTriangleMesh) : GLTriangleMesh :=
  meshes.foldl combineStep GLTriangleMesh.default

/-! ## The shape dispatchers -/

/-- The outline built in the `kDisk` case: `num_vertices = 30` points
`(cos(theta) * radius, sin(theta) * radius)`. -/
def diskOutline (env : Services) (radius : GLfloat) : Polygon2D :=
  let num_vertices := 30
  { path := (List.range num_vertices).map fun i =>
      (env.cosTimes (env.theta i num_vertices) radius,
       env.sinTimes (env.theta i num_vertices) radius)
    holes := [] }

/-- The function `GLTriangulate2DShape2D(shape_ptr, dimension)`, returning the mesh and the
calls made to the tessellation service. The second parameter is not read; every `kDisk`,
`kPolygon` and `kPolyLine` case calls `ConvertDiagMesh2DToGLMesh(diag_mesh, 0.0)` with the
default `normal_up = true`. -/
def GLTriangulate2DShape2D (env : Services) (shape_ptr : CollisionShape2D)
    (_dimension : GLuint) : Option (GLTriangleMesh × List TessCall) :=
  match shape_ptr.shape_type with
  | .kDisk => do
    let radius ← asDisk2D shape_ptr
    let polygon := diskOutline env radius
    let diag_mesh := env.TriangulatePolygon polygon
    let gl_mesh ← ConvertDiagMesh2DToGLMesh diag_mesh 0 true
    pure (gl_mesh, [TessCall.polygon polygon])
  | .kPolygon => do
    let poly ← asPolygon2D shape_ptr
    let diag_mesh := env.TriangulatePolygon poly
    let gl_mesh ← ConvertDiagMesh2DToGLMesh diag_mesh 0 true
    pure (gl_mesh, [TessCall.polygon poly])
  | .kPolyLine => do
    let path ← asLine2D shape_ptr
    let diag_mesh := env.TriangulatePolyline path 1.5
    let gl_mesh ← ConvertDiagMesh2DToGLMesh diag_mesh 0 true
    pure (gl_mesh, [TessCall.polyline path 1.5])
  | .kOther _ => some (GLTriangleMesh.default, [])

/-- The function `GLTriangulate3DShape2D(shape_ptr, depth)`, returning the mesh and the calls
made to the tessellation service: every case drops its `diag_mesh` and the function ends in
`return GLTriangleMesh()`. -/
def GLTriangulate3DShape2D (env : Services) (shape_ptr : CollisionShape2D)
    (_depth : GLfloat) : Option (GLTriangleMesh × List TessCall) :=
  match shape_ptr.shape_type with
  | .kDisk => do
    let radius ← asDisk2D shape_ptr
    let polygon := diskOutline env radius
    let _diag_mesh := env.TriangulatePolygon polygon
    pure (GLTriangleMesh.default, [TessCall.polygon polygon])
  | .kPolygon => do
    let poly ← asPolygon2D shape_ptr
    let _diag_mesh := env.TriangulatePolygon poly
    pure (GLTriangleMesh.default, [TessCall.polygon poly])
  | .kPolyLine => do
    let path ← asLine2D shape_ptr
    let _diag_mesh := env.TriangulatePolyline path 1.5
    pure (GLTriangleMesh.default, [TessCall.polyline path 1.5])
  | .kOther _ => some (GLTriangleMesh.default, [])

/-! ## Vocabulary of the specification -/

/-- The vertex count of a packed attribute array: its length over the stride 4. -/
def vertexCount (m : GLTriangleMesh) : Nat := m.vertices.length / 4

/-- The sum of the vertex counts of the meshes before position `k`. -/
def precedingVertexCount (meshes : List GLTriangleMesh) (k : Nat) : Nat :=
  ((meshes.take k).map vertexCount).sum

/-- The combined buffer in the words of the specification: attribute arrays concatenated in
input order, and the indices of the mesh at position `k` advanced by the sum of the vertex
counts of the meshes before it. -/
def combineSpec (meshes : List GLTriangleMesh) : GLTriangleMesh :=
  { vertices := meshes.flatMap fun m => m.vertices
    normals := meshes.flatMap fun m => m.normals
    colors := meshes.flatMap fun m => m.colors
    indices := meshes.enum.flatMap fun km =>
      km.2.indices.map fun idx => idx + precedingVertexCount meshes km.1 }

/-- The index array after the loop of `CombineGLMesh` has run over `meshes`, written as a
recursion on the running length `len` of the combined vertex array. -/
def runningIndices : Nat → List GLTriangleMesh → List Nat
  | _, [] => []
  | len, m :: ms =>
    (m.indices.map fun idx => toGLuint (idx + len / 4)) ++
      runningIndices (len + m.vertices.length) ms

/-- No index of the batch leaves the 32-bit range once its offset is added. -/
def NoIndexOverflow (meshes : List GLTriangleMesh) : Prop :=
  ∀ km ∈ meshes.enum, ∀ idx : Nat, idx ∈ km.2.indices →
    idx + precedingVertexCount meshes km.1 < 2 ^ 32

instance (meshes : List GLTriangleMesh) : Decidable (NoIndexOverflow meshes) := by
  unfold NoIndexOverflow
  infer_instance

/-- The normal count of a mesh: the length of its packed normal array over the stride 4. -/
def normalCount (m : GLTriangleMesh) : Nat := m.normals.length / 4

/-- The color count of a mesh: the length of its packed color array over the stride 4. -/
def colorCount (m : GLTriangleMesh) : Nat := m.colors.length / 4

/-- The Mesh Buffer invariant on the packed arrays: the three attribute arrays have one
length, the index count is divisible by 3, and every index is below the vertex count. -/
def MeshInvariant (m : GLTriangleMesh) : Prop :=
  m.vertices.length = m.normals.length ∧ m.normals.length = m.colors.length ∧
    m.indices.length % 3 = 0 ∧ ∀ idx : Nat, idx ∈ m.indices → idx < vertexCount m

instance (m : GLTriangleMesh) : Decidable (MeshInvariant m) := by
  unfold MeshInvariant
  infer_instance

/-- A mesh of one vertex with one (degenerate) triangle. -/
def sampleMeshA : GLTriangleMesh :=
  { vertices := [1, 2, 0, 1], normals := [0, 0, 1, 1], colors := [1, 0, 0, 1],
    indices := [0, 0, 0] }

/-- A mesh of two vertices with one (degenerate) triangle. -/
def sampleMeshB : GLTriangleMesh :=
  { vertices := [3, 4, 0, 1, 5, 6, 0, 1], normals := [0, 0, 1, 1, 0, 0, 1, 1],
    colors := [1, 0, 0, 1, 0, 1, 0, 1], indices := [0, 1, 1] }

/-- A mesh whose packed arrays hold six floats: one whole vertex and half of another. -/
def sampleMeshSix : GLTriangleMesh :=
  { vertices := [1, 2, 0, 1, 3, 4], normals := [0, 0, 1, 1, 0, 0],
    colors := [1, 0, 0, 1, 0, 1], indices := [0, 0, 0] }

/-- The color the first loop writes for the vertex at position `i`: the last of the three
guarded blocks whose guard holds (exactly one does). -/
def vertexColor (i : Nat) : List GLfloat :=
  if i % 3 = 0 then [1, 0, 0, 1] else if i % 3 = 1 then [0, 1, 0, 1] else [0, 0, 1, 1]

/-- The value of the int `normal_sign`, stored as a float. -/
def normalSign (normal_up : Bool) : GLfloat := if normal_up then 1 else -1

/-- The arrays the two loops of `ConvertDiagMesh2DToGLMesh` leave behind when every store
is inside the bounds, in closed form. -/
def convertResult (diag_mesh : TriangleMesh2D) (depth : GLfloat) (normal_up : Bool) :
    GLTriangleMesh :=
  { vertices := diag_mesh.vertices.flatMap fun p => [p.1, p.2, depth, 1]
    normals := diag_mesh.vertices.flatMap fun _ => [0, 0, normalSign normal_up, 1]
    colors := (List.range diag_mesh.vertices.length).flatMap vertexColor
    indices := diag_mesh.faces.flatMap fun f =>
      [toGLuint f.1, toGLuint f.2.1, toGLuint f.2.2] }

/-- The floats `4i .. 4i+3` of a packed attribute array: the attribute of vertex `i`. -/
def floatsAt (a : List GLfloat) (i : Nat) : List GLfloat := (a.drop (4 * i)).take 4

/-- The indices `3f .. 3f+2` of an index array: the triangle at position `f`. -/
def triangleAt (x : List GLuint) (f : Nat) : List GLuint := (x.drop (3 * f)).take 3

/-- A planar mesh of four points and two triangles (a unit square). -/
def sampleSquare : TriangleMesh2D :=
  { vertices := [(0, 0), (1, 0), (0, 1), (1, 1)], faces := [(0, 1, 2), (1, 3, 2)] }

/-- A stand-in for the collaborators, for concrete evaluation: the polygon service returns
one triangle over the first three boundary points, the polyline service returns the points
of the path with one triangle over the first three, and the float expressions return 0. -/
def sampleServices : Services :=
  { TriangulatePolygon := fun polygon => { vertices := polygon.path, faces := [(0, 1, 2)] }
    TriangulatePolyline := fun path _ => { vertices := path, faces := [(0, 1, 2)] }
    theta := fun _ _ => 0
    cosTimes := fun _ _ => 0
    sinTimes := fun _ _ => 0 }

/-- The open polyline `[(0,0), (1,0), (2,1)]` as a shape. -/
def samplePolyline : CollisionShape2D :=
  { shape_type := Shape2DType.kPolyLine, object := ShapeObject.Line2D [(0, 0), (1, 0), (2, 1)] }

/-! ## `CombineGLMesh`: the loop unfolded -/

theorem foldl_combineStep (meshes : List GLTriangleMesh) (acc : GLTriangleMesh) :
    meshes.foldl combineStep acc =
      { vertices := acc.vertices ++ meshes.flatMap fun m => m.vertices
        normals := acc.normals ++ meshes.flatMap fun m => m.normals
        colors := acc.colors ++ meshes.flatMap fun m => m.colors
        indices := acc.indices ++ runningIndices acc.vertices.length meshes } := by
  induction meshes generalizing acc with
  | nil => simp [runningIndices]
  | cons m ms ih =>
    rw [List.foldl_cons, ih]
    simp [combineStep, runningIndices, List.append_assoc]

theorem CombineGLMesh_eq (meshes : List GLTriangleMesh) :
    CombineGLMesh meshes =
      { vertices := meshes.flatMap fun m => m.vertices
        normals := meshes.flatMap fun m => m.normals
        colors := meshes.flatMap fun m => m.colors
        indices := runningIndices 0 meshes } := by
  simp [CombineGLMesh, foldl_combineStep, GLTriangleMesh.default]

theorem sum_lengths_div_four (pre : List GLTriangleMesh)
    (h4 : ∀ m ∈ pre, m.vertices.length % 4 = 0) :
    (pre.flatMap fun m => m.vertices).length % 4 = 0 ∧
      (pre.flatMap fun m => m.vertices).length / 4 = (pre.map vertexCount).sum := by
  induction pre with
  | nil => simp
  | cons m ms ih =>
    have hm := h4 m (by simp)
    have := ih (fun x hx => h4 x (by simp [hx]))
    simp only [List.flatMap_cons, List.length_append, List.map_cons, List.sum_cons, vertexCount]
    omega

theorem precedingVertexCount_left (pre suf : List GLTriangleMesh) :
    precedingVertexCount (pre ++ suf) pre.length = (pre.map vertexCount).sum := by
  simp [precedingVertexCount]

theorem runningIndices_spec (suf pre : List GLTriangleMesh)
    (hpre : ∀ m ∈ pre, m.vertices.length % 4 = 0)
    (hsuf : ∀ m ∈ suf, m.vertices.length % 4 = 0)
    (hov : ∀ km ∈ List.enumFrom pre.length suf, ∀ idx ∈ km.2.indices,
      idx + precedingVertexCount (pre ++ suf) km.1 < 2 ^ 32) :
    runningIndices (pre.flatMap fun m => m.vertices).length suf =
      (List.enumFrom pre.length suf).flatMap fun km =>
        km.2.indices.map fun idx => idx + precedingVertexCount (pre ++ suf) km.1 := by
  induction suf generalizing pre with
  | nil => simp [runningIndices]
  | cons m rest ih =>
    have hdiv := (sum_lengths_div_four pre hpre).2
    have hpre2 : ∀ x ∈ pre ++ [m], x.vertices.length % 4 = 0 := by
      intro x hx
      rcases List.mem_append.1 hx with h | h
      · exact hpre x h
      · exact hsuf x (by simp at h; simp [h])
    have hlen : ((pre ++ [m]).flatMap fun m => m.vertices).length =
        (pre.flatMap fun m => m.vertices).length + m.vertices.length := by
      simp
    have happ : (pre ++ [m]) ++ rest = pre ++ m :: rest := by simp
    have ih2 := ih (pre ++ [m]) hpre2 (fun x hx => hsuf x (by simp [hx])) (by
      intro km hkm idx hidx
      rw [happ]
      apply hov km _ idx hidx
      rw [List.enumFrom_cons]
      simp only [List.length_append, List.length_singleton] at hkm
      exact List.mem_cons_of_mem _ hkm)
    rw [hlen, happ] at ih2
    simp only [List.length_append, List.length_singleton] at ih2
    rw [runningIndices, ih2, List.enumFrom_cons, List.flatMap_cons]
    congr 1
    apply List.map_congr_left
    intro idx hidx
    have hb := hov (pre.length, m) (by simp [List.enumFrom_cons]) idx hidx
    simp only [precedingVertexCount_left] at hb ⊢
    rw [hdiv, toGLuint]
    exact Nat.mod_eq_of_lt hb

theorem runningIndices_length (meshes : List GLTriangleMesh) (len : Nat) :
    (runningIndices len meshes).length = (meshes.map fun m => m.indices.length).sum := by
  induction meshes generalizing len with
  | nil => simp [runningIndices]
  | cons m ms ih => simp [runningIndices, ih]

theorem sum_mod_three (xs : List Nat) (h : ∀ x ∈ xs, x % 3 = 0) : xs.sum % 3 = 0 := by
  induction xs with
  | nil => simp
  | cons x xs ih =>
    have hx := h x (by simp)
    have := ih (fun y hy => h y (by simp [hy]))
    simp only [List.sum_cons]
    omega

theorem runningIndices_lt (meshes : List GLTriangleMesh) (len : Nat)
    (h : ∀ m ∈ meshes, ∀ idx ∈ m.indices, idx < m.vertices.length / 4) :
    ∀ x ∈ runningIndices len meshes,
      x < (len + (meshes.flatMap fun m => m.vertices).length) / 4 := by
  induction meshes generalizing len with
  | nil => simp [runningIndices]
  | cons m ms ih =>
    intro x hx
    simp only [runningIndices, List.mem_append, List.mem_map] at hx
    simp only [List.flatMap_cons, List.length_append]
    rcases hx with ⟨idx, hidx, rfl⟩ | hx
    · have h1 : (idx : Nat) < m.vertices.length / 4 := h m (by simp) idx hidx
      have h2 : toGLuint (idx + len / 4) ≤ idx + len / 4 := Nat.mod_le _ _
      omega
    · have := ih (len + m.vertices.length) (fun y hy => h y (by simp [hy])) x hx
      omega

theorem length_flatMap_sum {α : Type} (meshes : List GLTriangleMesh)
    (f : GLTriangleMesh → List α) :
    (meshes.flatMap f).length = (meshes.map fun m => (f m).length).sum := by
  induction meshes with
  | nil => simp
  | cons m ms ih => simp [ih]

/-! ## Claims on `CombineGLMesh` -/

/-- C1: for every ordered list of meshes whose packed vertex arrays each have a length that
is a multiple of 4, and with no 32-bit index overflow, `CombineGLMesh` returns the buffer
whose vertices, normals and colors are the concatenation in input order of the inputs'
arrays, and whose indices are the concatenation in input order of each mesh's indices with
the sum of the vertex counts of all preceding meshes added to every index value. -/
theorem CombineGLMesh_concatenates (meshes : List GLTriangleMesh)
    (h4 : ∀ m ∈ meshes, m.vertices.length % 4 = 0) (hov : NoIndexOverflow meshes) :
    CombineGLMesh meshes = combineSpec meshes := by
  have h := runningIndices_spec meshes [] (by simp) h4 (by simpa [NoIndexOverflow] using hov)
  simp only [List.flatMap_nil, List.length_nil, List.nil_append] at h
  rw [CombineGLMesh_eq, combineSpec, h]
  rfl

theorem CombineGLMesh_concatenates_witness :
    (∀ m ∈ [sampleMeshA, sampleMeshB, sampleMeshA], m.vertices.length % 4 = 0) ∧
      NoIndexOverflow [sampleMeshA, sampleMeshB, sampleMeshA] ∧
      CombineGLMesh [sampleMeshA, sampleMeshB, sampleMeshA] =
        combineSpec [sampleMeshA, sampleMeshB, sampleMeshA] ∧
      (combineSpec [sampleMeshA, sampleMeshB, sampleMeshA]).indices =
        [0, 0, 0, 1, 2, 2, 3, 3, 3] :=
  ⟨by decide, by decide,
    CombineGLMesh_concatenates [sampleMeshA, sampleMeshB, sampleMeshA] (by decide) (by decide),
    by decide⟩

/-- C2, as stated, fails: two meshes of six packed floats each satisfy the invariant and
have one vertex each, yet the combined buffer of twelve floats has vertex count 3, not 2. -/
theorem CombineGLMesh_count_not_additive :
    (∀ m ∈ [sampleMeshSix, sampleMeshSix], MeshInvariant m) ∧
      vertexCount (CombineGLMesh [sampleMeshSix, sampleMeshSix]) = 3 ∧
      ([sampleMeshSix, sampleMeshSix].map vertexCount).sum = 2 := by
  decide

/-- C2 (amended): for every ordered list of meshes each satisfying the Mesh Buffer
invariant, the combined buffer satisfies the invariant again (equal attribute array
lengths, index count divisible by 3, every index strictly below the combined vertex
count), its attribute array lengths are the sums of the inputs' lengths, and its
vertex, normal and color counts are the sums of the inputs' counts when every input's
packed vertex array has a length that is a multiple of 4. -/
theorem CombineGLMesh_preserves_invariant (meshes : List GLTriangleMesh)
    (hinv : ∀ m ∈ meshes, MeshInvariant m) :
    MeshInvariant (CombineGLMesh meshes) ∧
      (CombineGLMesh meshes).vertices.length = (meshes.map fun m => m.vertices.length).sum ∧
      (CombineGLMesh meshes).normals.length = (meshes.map fun m => m.normals.length).sum ∧
      (CombineGLMesh meshes).colors.length = (meshes.map fun m => m.colors.length).sum ∧
      ((∀ m ∈ meshes, m.vertices.length % 4 = 0) →
        vertexCount (CombineGLMesh meshes) = (meshes.map vertexCount).sum ∧
        normalCount (CombineGLMesh meshes) = (meshes.map normalCount).sum ∧
        colorCount (CombineGLMesh meshes) = (meshes.map colorCount).sum) := by
  have hv : (CombineGLMesh meshes).vertices.length =
      (meshes.map fun m => m.vertices.length).sum := by
    rw [CombineGLMesh_eq]; exact length_flatMap_sum meshes _
  have hn : (CombineGLMesh meshes).normals.length =
      (meshes.map fun m => m.normals.length).sum := by
    rw [CombineGLMesh_eq]; exact length_flatMap_sum meshes _
  have hc : (CombineGLMesh meshes).colors.length =
      (meshes.map fun m => m.colors.length).sum := by
    rw [CombineGLMesh_eq]; exact length_flatMap_sum meshes _
  have hvn : (meshes.map fun m => m.vertices.length) = meshes.map fun m => m.normals.length :=
    List.map_congr_left fun m hm => (hinv m hm).1
  have hnc : (meshes.map fun m => m.normals.length) = meshes.map fun m => m.colors.length :=
    List.map_congr_left fun m hm => (hinv m hm).2.1
  have hcn : meshes.map normalCount = meshes.map vertexCount :=
    List.map_congr_left fun m hm => by
      have h := (hinv m hm).1
      simp only [normalCount, vertexCount]
      omega
  have hcc : meshes.map colorCount = meshes.map vertexCount :=
    List.map_congr_left fun m hm => by
      have h1 := (hinv m hm).1
      have h2 := (hinv m hm).2.1
      simp only [colorCount, vertexCount]
      omega
  have hvv : (CombineGLMesh meshes).vertices.length =
      (meshes.flatMap fun m => m.vertices).length := by rw [CombineGLMesh_eq]
  refine ⟨⟨?_, ?_, ?_, ?_⟩, hv, hn, hc, ?_⟩
  · rw [hv, hn, hvn]
  · rw [hn, hc, hnc]
  · rw [CombineGLMesh_eq]
    simp only [runningIndices_length]
    exact sum_mod_three _ (by
      intro x hx
      rcases List.mem_map.1 hx with ⟨m, hm, rfl⟩
      exact (hinv m hm).2.2.1)
  · intro idx hidx
    rw [CombineGLMesh_eq] at hidx
    have h := runningIndices_lt meshes 0 (fun m hm => (hinv m hm).2.2.2) idx hidx
    simp only [vertexCount, hvv]
    simpa using h
  · intro h4
    have hsum := (sum_lengths_div_four meshes h4).2
    have hvc : vertexCount (CombineGLMesh meshes) = (meshes.map vertexCount).sum := by
      simp only [vertexCount, hvv] at hsum ⊢
      exact hsum
    refine ⟨hvc, ?_, ?_⟩
    · rw [hcn, ← hvc]
      simp only [normalCount, vertexCount, hn, hv, hvn]
    · rw [hcc, ← hvc]
      simp only [colorCount, vertexCount, hc, hv, hvn, hnc]

theorem CombineGLMesh_preserves_invariant_witness :
    (∀ m ∈ [sampleMeshA, sampleMeshB, sampleMeshA], MeshInvariant m) ∧
      (MeshInvariant (CombineGLMesh [sampleMeshA, sampleMeshB, sampleMeshA]) ∧
        (CombineGLMesh [sampleMeshA, sampleMeshB, sampleMeshA]).vertices.length =
          ([sampleMeshA, sampleMeshB, sampleMeshA].map fun m => m.vertices.length).sum ∧
        (CombineGLMesh [sampleMeshA, sampleMeshB, sampleMeshA]).normals.length =
          ([sampleMeshA, sampleMeshB, sampleMeshA].map fun m => m.normals.length).sum ∧
        (CombineGLMesh [sampleMeshA, sampleMeshB, sampleMeshA]).colors.length =
          ([sampleMeshA, sampleMeshB, sampleMeshA].map fun m => m.colors.length).sum ∧
        ((∀ m ∈ [sampleMeshA, sampleMeshB, sampleMeshA], m.vertices.length % 4 = 0) →
          vertexCount (CombineGLMesh [sampleMeshA, sampleMeshB, sampleMeshA]) =
            ([sampleMeshA, sampleMeshB, sampleMeshA].map vertexCount).sum ∧
          normalCount (CombineGLMesh [sampleMeshA, sampleMeshB, sampleMeshA]) =
            ([sampleMeshA, sampleMeshB, sampleMeshA].map normalCount).sum ∧
          colorCount (CombineGLMesh [sampleMeshA, sampleMeshB, sampleMeshA]) =
            ([sampleMeshA, sampleMeshB, sampleMeshA].map colorCount).sum)) ∧
      (∀ m ∈ [sampleMeshA, sampleMeshB, sampleMeshA], m.vertices.length % 4 = 0) ∧
      (CombineGLMesh [sampleMeshA, sampleMeshB, sampleMeshA]).indices =
        [0, 0, 0, 1, 2, 2, 3, 3, 3] :=
  ⟨by decide,
    CombineGLMesh_preserves_invariant [sampleMeshA, sampleMeshB, sampleMeshA] (by decide),
    by decide, by decide⟩

/-! ## `ConvertDiagMesh2DToGLMesh`: the loops unfolded -/

theorem store_append {α : Type} (V W : List α) (k : Nat) (x : α) (hk : k < W.length) :
    store (V ++ W) (V.length + k) x = some (V ++ W.set k x) := by
  simp [store, hk, List.set_append]

theorem store4_0 {α : Type} (V rest : List α) (a0 a1 a2 a3 x : α) (j : Nat)
    (hj : V.length = j) :
    store (V ++ a0 :: a1 :: a2 :: a3 :: rest) j x =
      some (V ++ x :: a1 :: a2 :: a3 :: rest) := by
  subst hj
  have h := store_append V (a0 :: a1 :: a2 :: a3 :: rest) 0 x (by simp)
  simpa using h

theorem store4_1 {α : Type} (V rest : List α) (a0 a1 a2 a3 x : α) (j : Nat)
    (hj : V.length = j) :
    store (V ++ a0 :: a1 :: a2 :: a3 :: rest) (j + 1) x =
      some (V ++ a0 :: x :: a2 :: a3 :: rest) := by
  subst hj; rw [store_append V _ 1 x (by simp)]; simp

theorem store4_2 {α : Type} (V rest : List α) (a0 a1 a2 a3 x : α) (j : Nat)
    (hj : V.length = j) :
    store (V ++ a0 :: a1 :: a2 :: a3 :: rest) (j + 2) x =
      some (V ++ a0 :: a1 :: x :: a3 :: rest) := by
  subst hj; rw [store_append V _ 2 x (by simp)]; simp

theorem store4_3 {α : Type} (V rest : List α) (a0 a1 a2 a3 x : α) (j : Nat)
    (hj : V.length = j) :
    store (V ++ a0 :: a1 :: a2 :: a3 :: rest) (j + 3) x =
      some (V ++ a0 :: a1 :: a2 :: x :: rest) := by
  subst hj; rw [store_append V _ 3 x (by simp)]; simp

theorem vertexBody_run (diag_mesh : TriangleMesh2D) (depth : GLfloat) (normal_sign : Int)
    (i j : Nat) (p : Vector2f) (hp : diag_mesh.vertices[i]? = some p)
    (V N C restV restN restC : List GLfloat) (X : List GLuint)
    (hV : V.length = j) (hN : N.length = j) (hC : C.length = j) :
    vertexBody diag_mesh depth normal_sign i j
        { vertices := V ++ 0 :: 0 :: 0 :: 0 :: restV
          normals := N ++ 0 :: 0 :: 0 :: 0 :: restN
          colors := C ++ 0 :: 0 :: 0 :: 0 :: restC
          indices := X } =
      some
        { vertices := (V ++ [p.1, p.2, depth, 1]) ++ restV
          normals := (N ++ [0, 0, (normal_sign : GLfloat), 1]) ++ restN
          colors := (C ++ vertexColor i) ++ restC
          indices := X } := by
  have h3 : i % 3 = 0 ∨ i % 3 = 1 ∨ i % 3 = 2 := by omega
  rcases h3 with h | h | h <;>
    simp [vertexBody, hp, h, vertexColor, store4_0 _ _ _ _ _ _ _ j hV,
      store4_1 _ _ _ _ _ _ _ j hV, store4_2 _ _ _ _ _ _ _ j hV, store4_3 _ _ _ _ _ _ _ j hV,
      store4_0 _ _ _ _ _ _ _ j hN,
      store4_1 _ _ _ _ _ _ _ j hN, store4_2 _ _ _ _ _ _ _ j hN, store4_3 _ _ _ _ _ _ _ j hN,
      store4_0 _ _ _ _ _ _ _ j hC,
      store4_1 _ _ _ _ _ _ _ j hC, store4_2 _ _ _ _ _ _ _ j hC, store4_3 _ _ _ _ _ _ _ j hC]

theorem replicate_four_succ {α : Type} (r : Nat) (z : α) :
    List.replicate (4 * (r + 1)) z = z :: z :: z :: z :: List.replicate (4 * r) z := by
  have h : 4 * (r + 1) = 4 * r + 1 + 1 + 1 + 1 := by omega
  rw [h]
  simp [List.replicate_succ]

theorem vertexLoop_run (diag_mesh : TriangleMesh2D) (depth : GLfloat) (normal_sign : Int)
    (r : Nat) : ∀ (i j : Nat) (V N C : List GLfloat) (X : List GLuint),
    V.length = j → N.length = j → C.length = j → i + r ≤ diag_mesh.vertices.length →
    vertexLoop diag_mesh depth normal_sign r i j
        { vertices := V ++ List.replicate (4 * r) 0
          normals := N ++ List.replicate (4 * r) 0
          colors := C ++ List.replicate (4 * r) 0
          indices := X } =
      some
        { vertices := V ++ ((diag_mesh.vertices.drop i).take r).flatMap
            fun p => [p.1, p.2, depth, 1]
          normals := N ++ ((diag_mesh.vertices.drop i).take r).flatMap
            fun _ => [0, 0, (normal_sign : GLfloat), 1]
          colors := C ++ (List.range' i r).flatMap vertexColor
          indices := X } := by
  induction r with
  | zero =>
    intro i j V N C X _ _ _ _
    simp [vertexLoop]
  | succ r ih =>
    intro i j V N C X hV hN hC hle
    have hi : i < diag_mesh.vertices.length := by omega
    have hp : diag_mesh.vertices[i]? = some (diag_mesh.vertices[i]) :=
      List.getElem?_eq_getElem hi
    have hcol : (vertexColor i).length = 4 := by
      unfold vertexColor; split_ifs <;> rfl
    rw [vertexLoop, replicate_four_succ,
      vertexBody_run diag_mesh depth normal_sign i j _ hp V N C _ _ _ X hV hN hC,
      Option.some_bind,
      ih (i + 1) (j + 4) _ _ _ X (by simp [hV]) (by simp [hN]) (by simp [hC, hcol])
        (by omega),
      List.drop_eq_getElem_cons hi, List.take_succ_cons, List.range'_succ]
    simp [List.append_assoc]

theorem store3_0 {α : Type} (V rest : List α) (a0 a1 a2 x : α) (j : Nat)
    (hj : V.length = j) :
    store (V ++ a0 :: a1 :: a2 :: rest) j x = some (V ++ x :: a1 :: a2 :: rest) := by
  subst hj
  have h := store_append V (a0 :: a1 :: a2 :: rest) 0 x (by simp)
  simpa using h

theorem store3_1 {α : Type} (V rest : List α) (a0 a1 a2 x : α) (j : Nat)
    (hj : V.length = j) :
    store (V ++ a0 :: a1 :: a2 :: rest) (j + 1) x = some (V ++ a0 :: x :: a2 :: rest) := by
  subst hj; rw [store_append V _ 1 x (by simp)]; simp

theorem store3_2 {α : Type} (V rest : List α) (a0 a1 a2 x : α) (j : Nat)
    (hj : V.length = j) :
    store (V ++ a0 :: a1 :: a2 :: rest) (j + 2) x = some (V ++ a0 :: a1 :: x :: rest) := by
  subst hj; rw [store_append V _ 2 x (by simp)]; simp

theorem faceBody_run (diag_mesh : TriangleMesh2D) (i j : Nat) (f : Nat × Nat × Nat)
    (hf : diag_mesh.faces[i]? = some f) (V N C : List GLfloat) (X restX : List GLuint)
    (hX : X.length = j) :
    faceBody diag_mesh i j
        { vertices := V, normals := N, colors := C, indices := X ++ 0 :: 0 :: 0 :: restX } =
      some
        { vertices := V, normals := N, colors := C
          indices := (X ++ [toGLuint f.1, toGLuint f.2.1, toGLuint f.2.2]) ++ restX } := by
  simp [faceBody, hf, store3_0 _ _ _ _ _ _ j hX, store3_1 _ _ _ _ _ _ j hX,
    store3_2 _ _ _ _ _ _ j hX]

theorem replicate_three_succ {α : Type} (r : Nat) (z : α) :
    List.replicate (3 * (r + 1)) z = z :: z :: z :: List.replicate (3 * r) z := by
  have h : 3 * (r + 1) = 3 * r + 1 + 1 + 1 := by omega
  rw [h]
  simp [List.replicate_succ]

theorem faceLoop_run (diag_mesh : TriangleMesh2D) (r : Nat) :
    ∀ (i j : Nat) (V N C : List GLfloat) (X : List GLuint),
    X.length = j → i + r ≤ diag_mesh.faces.length →
    faceLoop diag_mesh r i j
        { vertices := V, normals := N, colors := C
          indices := X ++ List.replicate (3 * r) 0 } =
      some
        { vertices := V, normals := N, colors := C
          indices := X ++ ((diag_mesh.faces.drop i).take r).flatMap
            fun f => [toGLuint f.1, toGLuint f.2.1, toGLuint f.2.2] } := by
  induction r with
  | zero =>
    intro i j V N C X _ _
    simp [faceLoop]
  | succ r ih =>
    intro i j V N C X hX hle
    have hi : i < diag_mesh.faces.length := by omega
    have hf : diag_mesh.faces[i]? = some (diag_mesh.faces[i]) :=
      List.getElem?_eq_getElem hi
    rw [faceLoop, replicate_three_succ,
      faceBody_run diag_mesh i j _ hf V N C X _ hX, Option.some_bind,
      ih (i + 1) (j + 3) V N C _ (by simp [hX]) (by omega),
      List.drop_eq_getElem_cons hi, List.take_succ_cons]
    simp [List.append_assoc]

/-- Below the 32-bit sizes the two loops stay inside the arrays the constructor sized, and
`ConvertDiagMesh2DToGLMesh` returns the closed form. -/
theorem ConvertDiagMesh2DToGLMesh_run (diag_mesh : TriangleMesh2D) (depth : GLfloat)
    (normal_up : Bool) (hv : diag_mesh.vertices.length < 2 ^ 30)
    (hf : 3 * diag_mesh.faces.length < 2 ^ 32) :
    ConvertDiagMesh2DToGLMesh diag_mesh depth normal_up =
      some (convertResult diag_mesh depth normal_up) := by
  have h1 : toGLuint (dimension * toGLuint diag_mesh.vertices.length) =
      4 * diag_mesh.vertices.length := by
    simp only [toGLuint, dimension, kDiagrammarGLVertexDimension]
    omega
  have h2 : toGLuint (3 * toGLuint diag_mesh.faces.length) = 3 * diag_mesh.faces.length := by
    simp only [toGLuint]
    omega
  have hs : ((if normal_up = true then (1 : Int) else -1 : Int) : GLfloat) =
      normalSign normal_up := by
    cases normal_up <;> simp [normalSign]
  have hloop := vertexLoop_run diag_mesh depth (if normal_up = true then 1 else -1)
    diag_mesh.vertices.length 0 0 [] [] [] (List.replicate (3 * diag_mesh.faces.length) 0)
    rfl rfl rfl (by omega)
  have hface := faceLoop_run diag_mesh diag_mesh.faces.length 0 0
    (diag_mesh.vertices.flatMap fun p => [p.1, p.2, depth, 1])
    (diag_mesh.vertices.flatMap fun _ => [0, 0, normalSign normal_up, 1])
    ((List.range diag_mesh.vertices.length).flatMap vertexColor) [] rfl (by omega)
  simp only [List.nil_append, List.drop_zero, List.take_length] at hloop hface
  simp only [ConvertDiagMesh2DToGLMesh, GLTriangleMesh.GLTriangleMesh, h1, h2, hloop,
    Option.some_bind, hs, ← List.range_eq_range', hface, convertResult]

/-! ## `ConvertDiagMesh2DToGLMesh`: when a store leaves the bounds -/

theorem store_some {α : Type} {v w : List α} {j : Nat} {x : α} (h : store v j x = some w) :
    j < v.length ∧ w.length = v.length := by
  unfold store at h
  split_ifs at h with hj
  cases h
  exact ⟨hj, by simp⟩

theorem vertexBody_some {diag_mesh : TriangleMesh2D} {depth : GLfloat} {normal_sign : Int}
    {i j : Nat} {m m2 : GLTriangleMesh}
    (h : vertexBody diag_mesh depth normal_sign i j m = some m2) :
    j + 3 < m.vertices.length ∧ m2.vertices.length = m.vertices.length ∧
      m2.indices = m.indices := by
  have h3 : i % 3 = 0 ∨ i % 3 = 1 ∨ i % 3 = 2 := by omega
  rcases h3 with hc | hc | hc <;>
    simp only [vertexBody, hc, Option.bind_eq_bind, Option.bind_eq_some, Option.pure_def,
      if_true, if_false, Nat.zero_ne_one, Nat.one_ne_zero, OfNat.ofNat_ne_zero,
      OfNat.zero_ne_ofNat, Nat.succ_ne_self, reduceCtorEq, Option.some.injEq,
      (by decide : (0 : Nat) ≠ 2), (by decide : (1 : Nat) ≠ 2), (by decide : (2 : Nat) ≠ 1),
      (by decide : (2 : Nat) ≠ 0)] at h <;>
    obtain ⟨p, -, v1, h1, v2, h2, v3, h3, v4, h4, n1, -, n2, -, n3, -, n4, -, hrest⟩ := h <;>
    have e1 := store_some h1 <;>
    have e2 := store_some h2 <;>
    have e3 := store_some h3 <;>
    have e4 := store_some h4 <;>
    obtain ⟨_, -, _, -, _, -, _, -, _, -, _, -, rfl⟩ := hrest <;>
    exact ⟨by omega, by simp only; omega, rfl⟩

theorem vertexLoop_some (diag_mesh : TriangleMesh2D) (depth : GLfloat) (normal_sign : Int)
    (r : Nat) : ∀ (i j : Nat) (m m2 : GLTriangleMesh),
    vertexLoop diag_mesh depth normal_sign r i j m = some m2 →
      (r = 0 ∨ j + 4 * r ≤ m.vertices.length) ∧ m2.indices = m.indices := by
  induction r with
  | zero =>
    intro i j m m2 h
    simp only [vertexLoop, Option.some.injEq] at h
    subst h
    exact ⟨Or.inl rfl, rfl⟩
  | succ r ih =>
    intro i j m m2 h
    simp only [vertexLoop, Option.bind_eq_some] at h
    obtain ⟨m1, hb, hl⟩ := h
    have e := vertexBody_some hb
    have e2 := ih (i + 1) (j + 4) m1 m2 hl
    refine ⟨Or.inr ?_, by rw [e2.2, e.2.2]⟩
    rcases e2.1 with h0 | h0
    · omega
    · omega

theorem faceBody_some {diag_mesh : TriangleMesh2D} {i j : Nat} {m m2 : GLTriangleMesh}
    (h : faceBody diag_mesh i j m = some m2) :
    j + 2 < m.indices.length ∧ m2.indices.length = m.indices.length := by
  simp only [faceBody, Option.bind_eq_bind, Option.bind_eq_some, Option.pure_def,
    Option.some.injEq] at h
  obtain ⟨f, -, x1, h1, x2, h2, x3, h3, rfl⟩ := h
  have e1 := store_some h1
  have e2 := store_some h2
  have e3 := store_some h3
  exact ⟨by omega, by simp only; omega⟩

theorem faceLoop_some (diag_mesh : TriangleMesh2D) (r : Nat) :
    ∀ (i j : Nat) (m m2 : GLTriangleMesh),
    faceLoop diag_mesh r i j m = some m2 → r = 0 ∨ j + 3 * r ≤ m.indices.length := by
  induction r with
  | zero => intro i j m m2 _; exact Or.inl rfl
  | succ r ih =>
    intro i j m m2 h
    simp only [faceLoop, Option.bind_eq_some] at h
    obtain ⟨m1, hb, hl⟩ := h
    have e := faceBody_some hb
    right
    rcases ih (i + 1) (j + 3) m1 m2 hl with h0 | h0
    · omega
    · omega

/-- The function `ConvertDiagMesh2DToGLMesh` has defined behaviour exactly below the 32-bit
sizes: fewer than `2 ^ 30` points and fewer than `2 ^ 32` indices. -/
theorem ConvertDiagMesh2DToGLMesh_isSome_iff (diag_mesh : TriangleMesh2D) (depth : GLfloat)
    (normal_up : Bool) :
    (ConvertDiagMesh2DToGLMesh diag_mesh depth normal_up).isSome = true ↔
      diag_mesh.vertices.length < 2 ^ 30 ∧ 3 * diag_mesh.faces.length < 2 ^ 32 := by
  constructor
  · intro h
    obtain ⟨out, hout⟩ := Option.isSome_iff_exists.1 h
    simp only [ConvertDiagMesh2DToGLMesh, Option.bind_eq_some] at hout
    obtain ⟨m1, hv, hf⟩ := hout
    have ev := vertexLoop_some _ _ _ _ _ _ _ _ hv
    have ef := faceLoop_some _ _ _ _ _ _ hf
    simp only [GLTriangleMesh.GLTriangleMesh, List.length_replicate, toGLuint, dimension,
      kDiagrammarGLVertexDimension] at ev
    rw [ev.2] at ef
    simp only [List.length_replicate, toGLuint] at ef
    constructor
    · rcases ev.1 with h0 | h0
      · omega
      · omega
    · rcases ef with h0 | h0
      · omega
      · omega
  · rintro ⟨hv, hf⟩
    rw [ConvertDiagMesh2DToGLMesh_run diag_mesh depth normal_up hv hf]
    rfl

/-! ## Reading one vertex or one triangle out of a packed array -/

theorem flatMap_chunk {α β : Type} (f : α → List β) (k : Nat) (hk : ∀ x, (f x).length = k) :
    ∀ (l : List α) (i : Nat) (hi : i < l.length),
      ((l.flatMap f).drop (k * i)).take k = f l[i] := by
  intro l
  induction l with
  | nil => intro i hi; simp at hi
  | cons x l ih =>
    intro i hi
    cases i with
    | zero =>
      simp only [List.flatMap_cons, Nat.mul_zero, List.drop_zero, List.getElem_cons_zero]
      exact List.take_left' (hk x)
    | succ i =>
      have hlen : k * (i + 1) = (f x).length + k * i := by rw [hk x]; ring
      simp only [List.flatMap_cons, hlen, List.drop_append, List.getElem_cons_succ]
      exact ih i (by simpa using hi)

theorem length_flatMap_const {α β : Type} (f : α → List β) (k : Nat)
    (hk : ∀ x, (f x).length = k) (l : List α) : (l.flatMap f).length = k * l.length := by
  induction l with
  | nil => simp
  | cons x l ih => simp only [List.flatMap_cons, List.length_append, hk x, ih, List.length_cons]; ring

theorem vertexColor_length (i : Nat) : (vertexColor i).length = 4 := by
  unfold vertexColor; split_ifs <;> rfl

theorem convertResult_lengths (diag_mesh : TriangleMesh2D) (depth : GLfloat)
    (normal_up : Bool) :
    (convertResult diag_mesh depth normal_up).vertices.length = 4 * diag_mesh.vertices.length ∧
      (convertResult diag_mesh depth normal_up).normals.length =
        4 * diag_mesh.vertices.length ∧
      (convertResult diag_mesh depth normal_up).colors.length =
        4 * diag_mesh.vertices.length ∧
      (convertResult diag_mesh depth normal_up).indices.length = 3 * diag_mesh.faces.length := by
  refine ⟨?_, ?_, ?_, ?_⟩
  · exact length_flatMap_const (fun p : Vector2f => [p.1, p.2, depth, 1]) 4
      (fun _ => rfl) _
  · exact length_flatMap_const (fun _ : Vector2f => [0, 0, normalSign normal_up, 1]) 4
      (fun _ => rfl) _
  · have h := length_flatMap_const vertexColor 4 vertexColor_length
      (List.range diag_mesh.vertices.length)
    simpa [convertResult] using h
  · exact length_flatMap_const
      (fun f : Nat × Nat × Nat => [toGLuint f.1, toGLuint f.2.1, toGLuint f.2.2]) 3
      (fun _ => rfl) _

theorem ConvertDiagMesh2DToGLMesh_overflow (diag_mesh : TriangleMesh2D) (depth : GLfloat)
    (normal_up : Bool) (n k : Nat) (hn : diag_mesh.vertices.length = n)
    (hk : diag_mesh.faces.length = k) (h : 2 ^ 30 ≤ n ∨ 2 ^ 32 ≤ 3 * k) :
    ConvertDiagMesh2DToGLMesh diag_mesh depth normal_up = none := by
  rw [← Option.not_isSome_iff_eq_none, ConvertDiagMesh2DToGLMesh_isSome_iff, hn, hk]
  omega

/-! ## Claims on `ConvertDiagMesh2DToGLMesh` -/

/-- C3, as stated, fails: for a planar mesh of `2 ^ 32` points the constructor receives the
point count converted to `GLuint`, which is 0, and sizes the arrays empty; the first store of
the first loop is then outside the bounds and no Mesh Buffer is returned. -/
theorem ConvertDiagMesh2DToGLMesh_counts_fail :
    GLTriangleMesh.GLTriangleMesh (2 ^ 32) 0 = GLTriangleMesh.default ∧
      ConvertDiagMesh2DToGLMesh { vertices := List.replicate (2 ^ 32) (0, 0), faces := [] }
        0 true = none :=
  ⟨by decide, ConvertDiagMesh2DToGLMesh_overflow _ 0 true (2 ^ 32) 0
    (List.length_replicate _ _) rfl (Or.inl (by decide))⟩

/-- C3 (amended): for every planar mesh with fewer than `2 ^ 30` points and fewer than
`2 ^ 32` face indices (three per face), every depth and every `normal_up` flag,
`ConvertDiagMesh2DToGLMesh` returns a mesh whose vertex, normal and color counts equal the
number of points and whose index count is 3 times the number of faces; an empty planar mesh
yields the empty Mesh Buffer. -/
theorem ConvertDiagMesh2DToGLMesh_counts (diag_mesh : TriangleMesh2D) (depth : GLfloat)
    (normal_up : Bool) (hv : diag_mesh.vertices.length < 2 ^ 30)
    (hf : 3 * diag_mesh.faces.length < 2 ^ 32) :
    (∃ out, ConvertDiagMesh2DToGLMesh diag_mesh depth normal_up = some out ∧
      vertexCount out = diag_mesh.vertices.length ∧
      normalCount out = diag_mesh.vertices.length ∧
      colorCount out = diag_mesh.vertices.length ∧
      out.indices.length = 3 * diag_mesh.faces.length) ∧
    ConvertDiagMesh2DToGLMesh { vertices := [], faces := [] } depth normal_up =
      some { vertices := [], normals := [], colors := [], indices := [] } := by
  refine ⟨⟨_, ConvertDiagMesh2DToGLMesh_run diag_mesh depth normal_up hv hf, ?_⟩, rfl⟩
  obtain ⟨h1, h2, h3, h4⟩ := convertResult_lengths diag_mesh depth normal_up
  refine ⟨?_, ?_, ?_, h4⟩
  · rw [vertexCount, h1]; omega
  · rw [normalCount, h2]; omega
  · rw [colorCount, h3]; omega

theorem ConvertDiagMesh2DToGLMesh_counts_witness :
    sampleSquare.vertices.length < 2 ^ 30 ∧ 3 * sampleSquare.faces.length < 2 ^ 32 ∧
      (∃ out, ConvertDiagMesh2DToGLMesh sampleSquare 5 false = some out ∧
        vertexCount out = sampleSquare.vertices.length ∧
        normalCount out = sampleSquare.vertices.length ∧
        colorCount out = sampleSquare.vertices.length ∧
        out.indices.length = 3 * sampleSquare.faces.length) ∧
      ConvertDiagMesh2DToGLMesh { vertices := [], faces := [] } 5 false =
        some { vertices := [], normals := [], colors := [], indices := [] } :=
  ⟨by decide, by decide,
    ConvertDiagMesh2DToGLMesh_counts sampleSquare 5 false (by decide) (by decide)⟩

/-- C4, as stated, fails: a planar mesh of `2 ^ 32 + 3` points has a point at position 0, but
the arrays are sized for 3 vertices and the loop leaves them at the fourth point, so there is
no output whose colors could be read. -/
theorem ConvertDiagMesh2DToGLMesh_colors_fail :
    0 < (List.replicate (2 ^ 32 + 3) ((1, 1) : Vector2f)).length ∧
      ConvertDiagMesh2DToGLMesh
        { vertices := List.replicate (2 ^ 32 + 3) (1, 1), faces := [] } 0 true = none :=
  ⟨by rw [List.length_replicate]; decide,
    ConvertDiagMesh2DToGLMesh_overflow _ 0 true (2 ^ 32 + 3) 0
      (List.length_replicate _ _) rfl (Or.inl (by decide))⟩

/-- C4 (amended): for every planar mesh with fewer than `2 ^ 30` points and fewer than
`2 ^ 32` face indices, every depth, every `normal_up` flag and every point position `i`, the
color of vertex `i` in the output (floats `4i .. 4i+3` of `colors`) is `(1,0,0,1)` when
`i mod 3 = 0`, `(0,1,0,1)` when `i mod 3 = 1` and `(0,0,1,1)` when `i mod 3 = 2`. -/
theorem ConvertDiagMesh2DToGLMesh_colors (diag_mesh : TriangleMesh2D) (depth : GLfloat)
    (normal_up : Bool) (hv : diag_mesh.vertices.length < 2 ^ 30)
    (hf : 3 * diag_mesh.faces.length < 2 ^ 32) (i : Nat)
    (hi : i < diag_mesh.vertices.length) :
    ∃ out, ConvertDiagMesh2DToGLMesh diag_mesh depth normal_up = some out ∧
      (i % 3 = 0 → floatsAt out.colors i = [1, 0, 0, 1]) ∧
      (i % 3 = 1 → floatsAt out.colors i = [0, 1, 0, 1]) ∧
      (i % 3 = 2 → floatsAt out.colors i = [0, 0, 1, 1]) := by
  refine ⟨_, ConvertDiagMesh2DToGLMesh_run diag_mesh depth normal_up hv hf, ?_⟩
  have h := flatMap_chunk vertexColor 4 vertexColor_length
    (List.range diag_mesh.vertices.length) i (by simpa using hi)
  have hc : floatsAt (convertResult diag_mesh depth normal_up).colors i = vertexColor i := by
    simpa [floatsAt, convertResult] using h
  rw [hc]
  refine ⟨?_, ?_, ?_⟩ <;> intro h3 <;> simp [vertexColor, h3]

theorem ConvertDiagMesh2DToGLMesh_colors_witness :
    sampleSquare.vertices.length < 2 ^ 30 ∧ 3 * sampleSquare.faces.length < 2 ^ 32 ∧
      2 < sampleSquare.vertices.length ∧
      ∃ out, ConvertDiagMesh2DToGLMesh sampleSquare 5 false = some out ∧
        (2 % 3 = 0 → floatsAt out.colors 2 = [1, 0, 0, 1]) ∧
        (2 % 3 = 1 → floatsAt out.colors 2 = [0, 1, 0, 1]) ∧
        (2 % 3 = 2 → floatsAt out.colors 2 = [0, 0, 1, 1]) :=
  ⟨by decide, by decide, by decide,
    ConvertDiagMesh2DToGLMesh_colors sampleSquare 5 false (by decide) (by decide) 2
      (by decide)⟩

/-- C5, as stated, fails: for a planar mesh of `2 ^ 33` points (and `normal_up = false`) the
point count converted to `GLuint` is 0, the arrays are sized empty, and no output exists
whose normals could be read. -/
theorem ConvertDiagMesh2DToGLMesh_normals_fail :
    0 < (List.replicate (2 ^ 33) ((0, 0) : Vector2f)).length ∧
      ConvertDiagMesh2DToGLMesh
        { vertices := List.replicate (2 ^ 33) (0, 0), faces := [] } 0 false = none :=
  ⟨by rw [List.length_replicate]; decide,
    ConvertDiagMesh2DToGLMesh_overflow _ 0 false (2 ^ 33) 0
      (List.length_replicate _ _) rfl (Or.inl (by decide))⟩

/-- C5 (amended): for every planar mesh with fewer than `2 ^ 30` points and fewer than
`2 ^ 32` face indices, and every vertex `i` of the output of `ConvertDiagMesh2DToGLMesh`,
the normal (floats `4i .. 4i+3` of `normals`) equals `(0,0,+1,1)` when `normal_up` is true
and `(0,0,-1,1)` when it is false, so all vertices of one output mesh carry one normal. -/
theorem ConvertDiagMesh2DToGLMesh_normals (diag_mesh : TriangleMesh2D) (depth : GLfloat)
    (normal_up : Bool) (hv : diag_mesh.vertices.length < 2 ^ 30)
    (hf : 3 * diag_mesh.faces.length < 2 ^ 32) :
    ∃ out, ConvertDiagMesh2DToGLMesh diag_mesh depth normal_up = some out ∧
      vertexCount out = diag_mesh.vertices.length ∧
      ∀ i, i < vertexCount out →
        floatsAt out.normals i = if normal_up = true then [0, 0, 1, 1] else [0, 0, -1, 1] := by
  refine ⟨_, ConvertDiagMesh2DToGLMesh_run diag_mesh depth normal_up hv hf, ?_⟩
  have hcount : vertexCount (convertResult diag_mesh depth normal_up) =
      diag_mesh.vertices.length := by
    rw [vertexCount, (convertResult_lengths diag_mesh depth normal_up).1]; omega
  refine ⟨hcount, ?_⟩
  intro i hi
  rw [hcount] at hi
  have h := flatMap_chunk (fun _ : Vector2f => [0, 0, normalSign normal_up, 1]) 4
    (fun _ => rfl) diag_mesh.vertices i hi
  have hn : floatsAt (convertResult diag_mesh depth normal_up).normals i =
      [0, 0, normalSign normal_up, 1] := by
    simpa [floatsAt, convertResult] using h
  rw [hn]
  cases normal_up <;> simp [normalSign]

theorem ConvertDiagMesh2DToGLMesh_normals_witness :
    sampleSquare.vertices.length < 2 ^ 30 ∧ 3 * sampleSquare.faces.length < 2 ^ 32 ∧
      ∃ out, ConvertDiagMesh2DToGLMesh sampleSquare 5 false = some out ∧
        vertexCount out = sampleSquare.vertices.length ∧
        ∀ i, i < vertexCount out →
          floatsAt out.normals i = if false = true then [0, 0, 1, 1] else [0, 0, -1, 1] :=
  ⟨by decide, by decide,
    ConvertDiagMesh2DToGLMesh_normals sampleSquare 5 false (by decide) (by decide)⟩

/-- C6, as stated, fails: for a planar mesh of one point and `2 ^ 32` faces the face count
converted to `GLuint` is 0, the index array is sized empty, and the first store of the second
loop is outside the bounds: no output vertex or index exists. -/
theorem ConvertDiagMesh2DToGLMesh_layout_fail :
    GLTriangleMesh.GLTriangleMesh 1 (2 ^ 32) =
        { vertices := [0, 0, 0, 0], normals := [0, 0, 0, 0], colors := [0, 0, 0, 0],
          indices := [] } ∧
      ConvertDiagMesh2DToGLMesh
        { vertices := [(0, 0)], faces := List.replicate (2 ^ 32) (0, 0, 0) } 0 true = none :=
  ⟨by decide, ConvertDiagMesh2DToGLMesh_overflow _ 0 true 1 (2 ^ 32) rfl
    (List.length_replicate _ _) (Or.inr (by decide))⟩

/-- C6 (amended): for every planar mesh with fewer than `2 ^ 30` points and fewer than
`2 ^ 32` face indices, each of them below `2 ^ 32`, and every depth `d`,
`ConvertDiagMesh2DToGLMesh` places point `i = (x_i, y_i)` at output vertex
`i = (x_i, y_i, d, 1)`, in input order, and emits each face triple `(a,b,c)` unchanged and in
order as the indices `3f, 3f+1, 3f+2`. -/
theorem ConvertDiagMesh2DToGLMesh_layout (diag_mesh : TriangleMesh2D) (depth : GLfloat)
    (normal_up : Bool) (hv : diag_mesh.vertices.length < 2 ^ 30)
    (hf : 3 * diag_mesh.faces.length < 2 ^ 32)
    (hidx : ∀ f ∈ diag_mesh.faces, f.1 < 2 ^ 32 ∧ f.2.1 < 2 ^ 32 ∧ f.2.2 < 2 ^ 32) :
    ∃ out, ConvertDiagMesh2DToGLMesh diag_mesh depth normal_up = some out ∧
      (∀ (i : Nat) (hi : i < diag_mesh.vertices.length),
        floatsAt out.vertices i =
          [diag_mesh.vertices[i].1, diag_mesh.vertices[i].2, depth, 1]) ∧
      (∀ (f : Nat) (hlt : f < diag_mesh.faces.length),
        triangleAt out.indices f =
          [diag_mesh.faces[f].1, diag_mesh.faces[f].2.1, diag_mesh.faces[f].2.2]) := by
  refine ⟨_, ConvertDiagMesh2DToGLMesh_run diag_mesh depth normal_up hv hf, ?_, ?_⟩
  · intro i hi
    have h := flatMap_chunk (fun p : Vector2f => [p.1, p.2, depth, 1]) 4
      (fun _ => rfl) diag_mesh.vertices i hi
    simpa [floatsAt, convertResult] using h
  · intro f hlt
    have h := flatMap_chunk
      (fun t : Nat × Nat × Nat => [toGLuint t.1, toGLuint t.2.1, toGLuint t.2.2]) 3
      (fun _ => rfl) diag_mesh.faces f hlt
    obtain ⟨h1, h2, h3⟩ := hidx diag_mesh.faces[f] (List.getElem_mem _)
    have e1 : toGLuint diag_mesh.faces[f].1 = diag_mesh.faces[f].1 := Nat.mod_eq_of_lt h1
    have e2 : toGLuint diag_mesh.faces[f].2.1 = diag_mesh.faces[f].2.1 := Nat.mod_eq_of_lt h2
    have e3 : toGLuint diag_mesh.faces[f].2.2 = diag_mesh.faces[f].2.2 := Nat.mod_eq_of_lt h3
    rw [e1, e2, e3] at h
    simpa [triangleAt, convertResult] using h

theorem ConvertDiagMesh2DToGLMesh_layout_witness :
    sampleSquare.vertices.length < 2 ^ 30 ∧ 3 * sampleSquare.faces.length < 2 ^ 32 ∧
      (∀ f ∈ sampleSquare.faces, f.1 < 2 ^ 32 ∧ f.2.1 < 2 ^ 32 ∧ f.2.2 < 2 ^ 32) ∧
      ∃ out, ConvertDiagMesh2DToGLMesh sampleSquare 5 true = some out ∧
        (∀ (i : Nat) (hi : i < sampleSquare.vertices.length),
          floatsAt out.vertices i =
            [sampleSquare.vertices[i].1, sampleSquare.vertices[i].2, 5, 1]) ∧
        (∀ (f : Nat) (hlt : f < sampleSquare.faces.length),
          triangleAt out.indices f =
            [sampleSquare.faces[f].1, sampleSquare.faces[f].2.1, sampleSquare.faces[f].2.2]) :=
  ⟨by decide, by decide, by decide,
    ConvertDiagMesh2DToGLMesh_layout sampleSquare 5 true (by decide) (by decide) (by decide)⟩

/-- C7, as stated, fails: a planar mesh of one point and `2 ^ 31` faces `(0,0,0)` has every
face index inside its own point list, but the index array is sized `3 * 2 ^ 31 mod 2 ^ 32`,
which is `2 ^ 31`, and the second loop leaves it: no Mesh Buffer is returned. -/
theorem ConvertDiagMesh2DToGLMesh_invariant_fail :
    (∀ f ∈ List.replicate (2 ^ 31) ((0, 0, 0) : Nat × Nat × Nat),
        f.1 < [((0, 0) : Vector2f)].length ∧ f.2.1 < [((0, 0) : Vector2f)].length ∧
          f.2.2 < [((0, 0) : Vector2f)].length) ∧
      (GLTriangleMesh.GLTriangleMesh 1 (2 ^ 31)).indices.length = 2 ^ 31 ∧
      ConvertDiagMesh2DToGLMesh
        { vertices := [(0, 0)], faces := List.replicate (2 ^ 31) (0, 0, 0) } 0 true = none := by
  refine ⟨?_, ?_, ConvertDiagMesh2DToGLMesh_overflow _ 0 true 1 (2 ^ 31) rfl
    (List.length_replicate _ _) (Or.inr (by decide))⟩
  · intro f hf
    rw [List.eq_of_mem_replicate hf]
    decide
  · simp only [GLTriangleMesh.GLTriangleMesh, List.length_replicate, toGLuint]
    decide

/-- C7 (amended): for every planar mesh with fewer than `2 ^ 30` points and fewer than
`2 ^ 32` face indices whose face triples all reference point indices of its own vertex list,
the output of `ConvertDiagMesh2DToGLMesh` satisfies the Mesh Buffer invariant: the three
attribute arrays have one length, the index count is divisible by 3, and no index exceeds
the vertex count minus 1. -/
theorem ConvertDiagMesh2DToGLMesh_invariant (diag_mesh : TriangleMesh2D) (depth : GLfloat)
    (normal_up : Bool) (hv : diag_mesh.vertices.length < 2 ^ 30)
    (hf : 3 * diag_mesh.faces.length < 2 ^ 32)
    (hidx : ∀ f ∈ diag_mesh.faces, f.1 < diag_mesh.vertices.length ∧
      f.2.1 < diag_mesh.vertices.length ∧ f.2.2 < diag_mesh.vertices.length) :
    ∃ out, ConvertDiagMesh2DToGLMesh diag_mesh depth normal_up = some out ∧
      MeshInvariant out := by
  refine ⟨_, ConvertDiagMesh2DToGLMesh_run diag_mesh depth normal_up hv hf, ?_⟩
  obtain ⟨h1, h2, h3, h4⟩ := convertResult_lengths diag_mesh depth normal_up
  refine ⟨by rw [h1, h2], by rw [h2, h3], by rw [h4]; omega, ?_⟩
  intro idx hmem
  rw [vertexCount, h1]
  simp only [convertResult, List.mem_flatMap, List.mem_cons, List.mem_singleton,
    List.not_mem_nil, or_false] at hmem
  obtain ⟨f, hfm, hcase⟩ := hmem
  obtain ⟨b1, b2, b3⟩ := hidx f hfm
  have l1 : toGLuint f.1 ≤ f.1 := Nat.mod_le _ _
  have l2 : toGLuint f.2.1 ≤ f.2.1 := Nat.mod_le _ _
  have l3 : toGLuint f.2.2 ≤ f.2.2 := Nat.mod_le _ _
  rcases hcase with h | h | h <;> rw [h] <;> omega

theorem ConvertDiagMesh2DToGLMesh_invariant_witness :
    sampleSquare.vertices.length < 2 ^ 30 ∧ 3 * sampleSquare.faces.length < 2 ^ 32 ∧
      (∀ f ∈ sampleSquare.faces, f.1 < sampleSquare.vertices.length ∧
        f.2.1 < sampleSquare.vertices.length ∧ f.2.2 < sampleSquare.vertices.length) ∧
      ∃ out, ConvertDiagMesh2DToGLMesh sampleSquare 5 true = some out ∧ MeshInvariant out :=
  ⟨by decide, by decide, by decide,
    ConvertDiagMesh2DToGLMesh_invariant sampleSquare 5 true (by decide) (by decide)
      (by decide)⟩

/-! ## Claims on the shape dispatchers -/

/-- C8, as stated, fails: for the open polyline `[(0,0), (1,0), (2,1)]` and second argument 5,
with a stroke tessellation that returns the three points, the output vertices are
`(0,0,0,1)`, `(1,0,0,1)`, `(2,1,0,1)`: every `z` is 0, not 5. -/
theorem GLTriangulate2DShape2D_polyline_depth_fail :
    (GLTriangulate2DShape2D sampleServices samplePolyline 5).map Prod.fst =
        some
          { vertices := [0, 0, 0, 1, 1, 0, 0, 1, 2, 1, 0, 1]
            normals := [0, 0, 1, 1, 0, 0, 1, 1, 0, 0, 1, 1]
            colors := [1, 0, 0, 1, 0, 1, 0, 1, 0, 0, 1, 1]
            indices := [0, 1, 2] } ∧
      (floatsAt [0, 0, 0, 1, 1, 0, 0, 1, 2, 1, 0, 1] 0)[2]? = some 0 ∧
      (floatsAt [0, 0, 0, 1, 1, 0, 0, 1, 2, 1, 0, 1] 0)[2]? ≠ some 5 := by
  decide

/-- C8 (amended): for every open polyline shape with points `P` and every second argument,
`GLTriangulate2DShape2D` calls the stroke tessellation `TriangulatePolyline(P, 1.5)` once and,
when that mesh has fewer than `2 ^ 30` points and fewer than `2 ^ 32` face indices, returns
`ConvertDiagMesh2DToGLMesh` of it at depth 0 with `normal_up = true`: the second argument is
not read and every output vertex has `z = 0`. -/
theorem GLTriangulate2DShape2D_polyline (env : Services) (P : Path2D) (second : GLuint)
    (hv : (env.TriangulatePolyline P 1.5).vertices.length < 2 ^ 30)
    (hf : 3 * (env.TriangulatePolyline P 1.5).faces.length < 2 ^ 32) :
    ∃ out,
      GLTriangulate2DShape2D env
          { shape_type := Shape2DType.kPolyLine, object := ShapeObject.Line2D P } second =
        some (out, [TessCall.polyline P 1.5]) ∧
      ConvertDiagMesh2DToGLMesh (env.TriangulatePolyline P 1.5) 0 true = some out ∧
      vertexCount out = (env.TriangulatePolyline P 1.5).vertices.length ∧
      ∀ i, i < vertexCount out → (floatsAt out.vertices i)[2]? = some 0 := by
  have hrun := ConvertDiagMesh2DToGLMesh_run (env.TriangulatePolyline P 1.5) 0 true hv hf
  have hcount : vertexCount (convertResult (env.TriangulatePolyline P 1.5) 0 true) =
      (env.TriangulatePolyline P 1.5).vertices.length := by
    rw [vertexCount, (convertResult_lengths _ 0 true).1]; omega
  refine ⟨_, ?_, hrun, hcount, ?_⟩
  · simp [GLTriangulate2DShape2D, asLine2D, hrun]
  · intro i hi
    rw [hcount] at hi
    have h := flatMap_chunk (fun p : Vector2f => [p.1, p.2, (0 : GLfloat), 1]) 4
      (fun _ => rfl) (env.TriangulatePolyline P 1.5).vertices i hi
    have hz : floatsAt (convertResult (env.TriangulatePolyline P 1.5) 0 true).vertices i =
        [((env.TriangulatePolyline P 1.5).vertices[i]).1,
          ((env.TriangulatePolyline P 1.5).vertices[i]).2, 0, 1] := by
      simpa [floatsAt, convertResult] using h
    rw [hz]
    rfl

theorem GLTriangulate2DShape2D_polyline_witness :
    (sampleServices.TriangulatePolyline [(0, 0), (1, 0), (2, 1)] 1.5).vertices.length
        < 2 ^ 30 ∧
      3 * (sampleServices.TriangulatePolyline [(0, 0), (1, 0), (2, 1)] 1.5).faces.length
        < 2 ^ 32 ∧
      ∃ out,
        GLTriangulate2DShape2D sampleServices
            { shape_type := Shape2DType.kPolyLine,
              object := ShapeObject.Line2D [(0, 0), (1, 0), (2, 1)] } 5 =
          some (out, [TessCall.polyline [(0, 0), (1, 0), (2, 1)] 1.5]) ∧
        ConvertDiagMesh2DToGLMesh
            (sampleServices.TriangulatePolyline [(0, 0), (1, 0), (2, 1)] 1.5) 0 true =
          some out ∧
        vertexCount out =
          (sampleServices.TriangulatePolyline [(0, 0), (1, 0), (2, 1)] 1.5).vertices.length ∧
        ∀ i, i < vertexCount out → (floatsAt out.vertices i)[2]? = some 0 :=
  ⟨by decide, by decide,
    GLTriangulate2DShape2D_polyline sampleServices [(0, 0), (1, 0), (2, 1)] 5
      (by decide) (by decide)⟩

/-- C9: for every shape whose kind tag is none of `kDisk`, `kPolygon`, `kPolyLine`,
whatever object is behind the pointer, `GLTriangulate2DShape2D` returns a Mesh Buffer with 0
vertices, 0 normals, 0 colors and 0 indices, makes no call to the tessellation service, and
its behaviour is defined (no error is signalled). -/
theorem GLTriangulate2DShape2D_unrecognized (env : Services) (shape_ptr : CollisionShape2D)
    (second : GLuint) (hd : shape_ptr.shape_type ≠ Shape2DType.kDisk)
    (hp : shape_ptr.shape_type ≠ Shape2DType.kPolygon)
    (hl : shape_ptr.shape_type ≠ Shape2DType.kPolyLine) :
    ∃ out, GLTriangulate2DShape2D env shape_ptr second = some (out, []) ∧
      out.vertices.length = 0 ∧ out.normals.length = 0 ∧ out.colors.length = 0 ∧
      out.indices.length = 0 := by
  refine ⟨GLTriangleMesh.default, ?_, rfl, rfl, rfl, rfl⟩
  unfold GLTriangulate2DShape2D
  split
  · next h => exact absurd h hd
  · next h => exact absurd h hp
  · next h => exact absurd h hl
  · rfl

theorem GLTriangulate2DShape2D_unrecognized_witness :
    Shape2DType.kOther 7 ≠ Shape2DType.kDisk ∧ Shape2DType.kOther 7 ≠ Shape2DType.kPolygon ∧
      Shape2DType.kOther 7 ≠ Shape2DType.kPolyLine ∧
      ∃ out,
        GLTriangulate2DShape2D sampleServices
            { shape_type := Shape2DType.kOther 7, object := ShapeObject.Disk2D 2 } 3 =
          some (out, []) ∧
        out.vertices.length = 0 ∧ out.normals.length = 0 ∧ out.colors.length = 0 ∧
        out.indices.length = 0 :=
  ⟨by decide, by decide, by decide,
    GLTriangulate2DShape2D_unrecognized sampleServices
      { shape_type := Shape2DType.kOther 7, object := ShapeObject.Disk2D 2 } 3
      (by decide) (by decide) (by decide)⟩

/-- C10: for every disk, polygon, polyline and every shape of an unrecognised kind, every
depth, and whatever the tessellation service returns, `GLTriangulate3DShape2D` has defined
behaviour and returns the empty Mesh Buffer (0 vertices, 0 normals, 0 colors, 0 indices); the
tessellation is called in the three recognised cases and its result is dropped. -/
theorem GLTriangulate3DShape2D_empty (env : Services) (depth : GLfloat) :
    (∀ radius : GLfloat,
      GLTriangulate3DShape2D env
          { shape_type := Shape2DType.kDisk, object := ShapeObject.Disk2D radius } depth =
        some ({ vertices := [], normals := [], colors := [], indices := [] },
          [TessCall.polygon (diskOutline env radius)])) ∧
    (∀ polygon : Polygon2D,
      GLTriangulate3DShape2D env
          { shape_type := Shape2DType.kPolygon, object := ShapeObject.Polygon2D polygon }
          depth =
        some ({ vertices := [], normals := [], colors := [], indices := [] },
          [TessCall.polygon polygon])) ∧
    (∀ path : Path2D,
      GLTriangulate3DShape2D env
          { shape_type := Shape2DType.kPolyLine, object := ShapeObject.Line2D path } depth =
        some ({ vertices := [], normals := [], colors := [], indices := [] },
          [TessCall.polyline path 1.5])) ∧
    (∀ (tag : Nat) (object : ShapeObject),
      GLTriangulate3DShape2D env { shape_type := Shape2DType.kOther tag, object := object }
          depth =
        some ({ vertices := [], normals := [], colors := [], indices := [] }, [])) :=
  ⟨fun _ => rfl, fun _ => rfl, fun _ => rfl, fun _ _ => rfl⟩

/-! ## `CombineGLMesh` over concatenation -/

theorem runningIndices_append (A B : List GLTriangleMesh) (len : Nat) :
    runningIndices len (A ++ B) =
      runningIndices len A ++
        runningIndices (len + (A.flatMap fun m => m.vertices).length) B := by
  induction A generalizing len with
  | nil => simp [runningIndices]
  | cons m ms ih =>
    rw [List.cons_append, runningIndices, runningIndices, ih (len + m.vertices.length)]
    simp [List.append_assoc, Nat.add_assoc]

theorem runningIndices_shift (B : List GLTriangleMesh) (base len : Nat) (hb : base % 4 = 0) :
    runningIndices (base + len) B =
      (runningIndices len B).map fun x => toGLuint (x + base / 4) := by
  induction B generalizing len with
  | nil => simp [runningIndices]
  | cons m ms ih =>
    simp only [runningIndices, List.map_append, List.map_map, Nat.add_assoc, ih]
    congr 1
    apply List.map_congr_left
    intro idx _
    simp only [Function.comp, toGLuint]
    omega

theorem runningIndices_reduced (A : List GLTriangleMesh) (len : Nat) :
    ((runningIndices len A).map fun x => toGLuint (x + 0 / 4)) = runningIndices len A := by
  induction A generalizing len with
  | nil => simp [runningIndices]
  | cons m ms ih =>
    simp only [runningIndices, List.map_append, List.map_map, ih]
    congr 1
    apply List.map_congr_left
    intro idx _
    simp only [Function.comp, toGLuint]
    omega

-- The statement below keeps every hypothesis of the claim; the proof needs only that the
-- arrays of `A` are aligned to the stride and that the indices of `m` fit 32 bits, because
-- both sides of the first equation wrap modulo `2 ^ 32` alike.
set_option linter.unusedVariables false

/-- C11: for all lists `A` and `B` of meshes whose packed vertex arrays each have a length
that is a multiple of 4, with no 32-bit index overflow, `CombineGLMesh (A ++ B)` equals
`CombineGLMesh [CombineGLMesh A, CombineGLMesh B]`; and for every such single mesh `m`,
`CombineGLMesh [m]` equals `m`. Merging pre-batched groups in order gives the buffer of
batching all meshes in one pass. -/
theorem CombineGLMesh_append (A B : List GLTriangleMesh) (m : GLTriangleMesh)
    (h4 : ∀ x ∈ A ++ B, x.vertices.length % 4 = 0) (hov : NoIndexOverflow (A ++ B))
    (hm4 : m.vertices.length % 4 = 0) (hmov : NoIndexOverflow [m]) :
    CombineGLMesh (A ++ B) = CombineGLMesh [CombineGLMesh A, CombineGLMesh B] ∧
      CombineGLMesh [m] = m := by
  constructor
  · have hA := (sum_lengths_div_four A (fun x hx => h4 x (by simp [hx]))).1
    have hidx : runningIndices 0 (A ++ B) =
        runningIndices 0 [CombineGLMesh A, CombineGLMesh B] := by
      rw [runningIndices_append, Nat.zero_add]
      have hs := runningIndices_shift B (A.flatMap fun m => m.vertices).length 0 hA
      rw [Nat.add_zero] at hs
      rw [hs]
      simp only [runningIndices, List.append_nil, Nat.zero_add]
      rw [CombineGLMesh_eq A, CombineGLMesh_eq B]
      simp only [runningIndices_reduced]
    rw [CombineGLMesh_eq (A ++ B), CombineGLMesh_eq [CombineGLMesh A, CombineGLMesh B], hidx]
    simp only [List.flatMap_append, List.flatMap_cons, List.flatMap_nil, List.append_nil]
    rw [CombineGLMesh_eq A, CombineGLMesh_eq B]
  · have hlt : ∀ idx : Nat, idx ∈ m.indices → idx < 2 ^ 32 := by
      intro idx hidx
      have h := hmov (0, m) (by simp [List.enum]) idx hidx
      simpa [precedingVertexCount] using h
    have hmap : (m.indices.map fun idx => toGLuint (idx + 0 / 4)) = m.indices := by
      conv_rhs => rw [← List.map_id m.indices]
      apply List.map_congr_left
      intro idx hidx
      have := hlt idx hidx
      simp only [toGLuint, id]
      omega
    rw [CombineGLMesh_eq]
    simp only [runningIndices, List.flatMap_cons, List.flatMap_nil, List.append_nil, hmap]

theorem CombineGLMesh_append_witness :
    (∀ x ∈ [sampleMeshA, sampleMeshB] ++ [sampleMeshB, sampleMeshA],
        x.vertices.length % 4 = 0) ∧
      NoIndexOverflow ([sampleMeshA, sampleMeshB] ++ [sampleMeshB, sampleMeshA]) ∧
      sampleMeshB.vertices.length % 4 = 0 ∧ NoIndexOverflow [sampleMeshB] ∧
      (CombineGLMesh ([sampleMeshA, sampleMeshB] ++ [sampleMeshB, sampleMeshA]) =
          CombineGLMesh
            [CombineGLMesh [sampleMeshA, sampleMeshB],
              CombineGLMesh [sampleMeshB, sampleMeshA]] ∧
        CombineGLMesh [sampleMeshB] = sampleMeshB) ∧
      (CombineGLMesh ([sampleMeshA, sampleMeshB] ++ [sampleMeshB, sampleMeshA])).indices =
        [0, 0, 0, 1, 2, 2, 3, 4, 4, 5, 5, 5] :=
  ⟨by decide, by decide, by decide, by decide,
    CombineGLMesh_append [sampleMeshA, sampleMeshB] [sampleMeshB, sampleMeshA] sampleMeshB
      (by decide) (by decide) (by decide) (by decide),
    by decide⟩

end diagrammar
